import Mathlib

/-
Verification development for the knowledgehelper repository.

The development shallowly embeds the Query-to-Document Relevance Matcher,
the Source Attribution Verifier, the corpus scan, and the usage-analytics
update hook from the Python sources (web_app.py, document_processor.py)
as executable Lean definitions, and settles the frozen claims about them.

Python strings are modelled as lists of characters; Python `a in b`
(substring test) is modelled by strContains; Python machine integers are
all nonnegative counters here and are modelled as Nat.  The lone floating
point literal 0.6 (the attribution threshold) is modelled as the exact
rational 3/5, via the integer comparison 3 * n <= 5 * m.
-/

set_option linter.unusedVariables false

/-- Python strings are modelled as lists of characters. -/
abbrev Str := List Char

/-- Python `str.lower()` (the sources only ever lowercase ASCII text). -/
def lowerS (s : Str) : Str := s.map Char.toLower

/-- Python `needle in hay` substring test on strings. -/
def strContains (hay needle : Str) : Bool :=
  hay.tails.any (fun t => needle.isPrefixOf t)

/-- Python `str.split()` with no argument: split on whitespace runs,
discarding empty pieces. -/
def splitWs (s : Str) : List Str :=
  (s.splitOnP Char.isWhitespace).filter (fun w => w ≠ [])

/-- Python `str.strip()`: drop leading and trailing whitespace. -/
def stripS (s : Str) : Str :=
  ((s.dropWhile Char.isWhitespace).reverse.dropWhile Char.isWhitespace).reverse

/-- Python `str.replace(a, b)` for single characters. -/
def replaceChar (a b : Char) (s : Str) : Str :=
  s.map (fun c => if c = a then b else c)

deriving instance DecidableEq for Except

/-- A document offered by the corpus scan: identifier, file path, and the
outcome of raw text extraction.  Extraction is I/O in the source, so its
outcome (decoded text, or the detail of the caught exception) is carried
as data: `Except e s` models the per-document try/except of
`DynamicDocumentProcessor.extract_text_from_file`. -/
structure Doc where
  name : Str
  path : Str
  raw : Except Str Str
deriving DecidableEq, Repr

/-- The error string `extract_text_from_file` returns when reading raises
(document_processor.py line 61: `f"Error reading {file_path}: {str(e)}"`). -/
def errMessage (path detail : Str) : Str :=
  ("Error reading ".data) ++ path ++ (": ".data) ++ detail

/-- Models `DynamicDocumentProcessor.extract_text_from_file` (document_processor.py
lines 42-61): the per-format readers are external I/O; their outcome is the
`raw` field.  On success the decoded text is returned, on any exception the
error-message string is returned (the exception is swallowed). -/
def extract_text_from_file (path : Str) (raw : Except Str Str) : Str :=
  match raw with
  | .ok s => s
  | .error e => errMessage path e

/-- The `doc_patterns` table of `find_relevant_documents`
(web_app.py lines 67-74). -/
def doc_patterns : List (Str × List Str) :=
  [ ( "employee_handbook".data,
      [ "handbook".data, "employee".data, "work hours".data, "dress code".data,
        "performance".data, "mission".data, "core hours".data,
        "collaboration".data, "growth".data ] ),
    ( "pto_policy".data,
      [ "pto".data, "vacation".data, "time off".data, "leave".data,
        "holiday".data, "sick days".data, "personal days".data,
        "paid time".data ] ),
    ( "health_benefits".data,
      [ "health".data, "medical".data, "benefits".data, "insurance".data,
        "healthcare".data, "dental".data, "vision".data, "coverage".data ] ),
    ( "it_security_policy".data,
      [ "security".data, "password".data, "it policy".data, "network".data,
        "vpn".data, "device".data, "data protection".data,
        "cybersecurity".data ] ),
    ( "claude_usage_policy".data,
      [ "claude".data, "ai".data, "artificial intelligence".data,
        "usage policy".data, "ai guidelines".data ] ),
    ( "org_structure".data,
      [ "organization".data, "structure".data, "department".data,
        "team".data, "hierarchy".data, "reporting".data ] ) ]

/-- The stop-word list of `find_relevant_documents` (web_app.py line 85). -/
def stop_words : List Str :=
  [ "the".data, "and".data, "for".data, "with".data, "about".data,
    "what".data, "how".data, "can".data, "you".data ]

/-- The query words of `find_relevant_documents` (web_app.py line 85):
whitespace tokens of the lowercased query of length above 2 that are not
stop words. -/
def query_words_of (query : Str) : List Str :=
  (splitWs (lowerS query)).filter
    (fun w => 2 < w.length && !(stop_words.contains w))

/-- The body of the `for pattern_name, keywords in doc_patterns.items()` loop
(web_app.py lines 91-99): the keyword count for one topic, multiplied by 5
when some underscore-separated part of the topic name occurs as a substring
of the lowercased document name, and 0 otherwise. -/
def topicValue (query_lower doc_name_lower : Str) (t : Str × List Str) : Nat :=
  let query_pattern_matches := (t.2.filter (fun kw => strContains query_lower kw)).length
  if (t.1.splitOn '_').any (fun part => strContains doc_name_lower part) then
    query_pattern_matches * 5
  else 0

/-- Models `best_pattern_score` of `find_relevant_documents` (web_app.py lines
88-103): running maximum of the per-topic values over the pattern table. -/
def best_pattern_score (query_lower doc_name_lower : Str) : Nat :=
  doc_patterns.foldl
    (fun best t =>
      if best < topicValue query_lower doc_name_lower t then
        topicValue query_lower doc_name_lower t
      else best)
    0

/-- Models `content_matches` (web_app.py line 106): query words occurring as
substrings of the lowercased document content. -/
def content_matches_of (query : Str) (content : Str) : Nat :=
  ((query_words_of query).filter (fun w => strContains (lowerS content) w)).length

/-- Models `name_matches` (web_app.py line 109): query words occurring as
substrings of the lowercased document name. -/
def name_matches_of (query : Str) (doc_name : Str) : Nat :=
  ((query_words_of query).filter (fun w => strContains (lowerS doc_name) w)).length

/-- An admitted candidate, mirroring the tuple
`(doc_name, file_path, total_score, content)` appended at
web_app.py line 116. -/
structure Cand where
  name : Str
  path : Str
  score : Nat
  content : Str
deriving DecidableEq, Repr

/-- The per-document body of the scan loop of `find_relevant_documents`
(web_app.py lines 79-116): extract the text, compute the three match
counts, and admit the document when
`total_score >= 5 and (name_matches > 0 or content_matches > 2 or best_pattern_score > 0)`. -/
def scoreDoc (query : Str) (d : Doc) : Option Cand :=
  let content := extract_text_from_file d.path d.raw
  let content_matches := content_matches_of query content
  let name_matches := name_matches_of query d.name
  let best := best_pattern_score (lowerS query) (lowerS d.name)
  let total_score := content_matches * 2 + name_matches * 3 + best
  if 5 ≤ total_score ∧ (0 < name_matches ∨ 2 < content_matches ∨ 0 < best) then
    some ⟨d.name, d.path, total_score, content⟩
  else none

/-- The admitted candidates in corpus scan order (`relevant_docs` just
before the sort at web_app.py line 119). -/
def admittedCands (corpus : List Doc) (query : Str) : List Cand :=
  corpus.filterMap (scoreDoc query)

/-- Stable insertion step for sorting by `score` descending: a candidate is
placed before the first later candidate whose score does not exceed its
own, so equal scores keep their original relative order. -/
def insertCand (x : Cand) : List Cand → List Cand
  | [] => [x]
  | y :: ys => if y.score ≤ x.score then x :: y :: ys else y :: insertCand x ys

/-- Stable sort by `score` descending, modelling
`relevant_docs.sort(key=lambda x: x[2], reverse=True)` (web_app.py line
119); Python list.sort is stable, and a stable descending sort is the
unique permutation that is sorted with ties in original order, which this
insertion sort computes. -/
def sortCands : List Cand → List Cand
  | [] => []
  | x :: xs => insertCand x (sortCands xs)

/-- The sorted candidate list (`relevant_docs` after line 119). -/
def rankedCands (corpus : List Doc) (query : Str) : List Cand :=
  sortCands (admittedCands corpus query)

/-- The final cut of `find_relevant_documents` (web_app.py lines 121-125):
`if len(relevant_docs) >= 2 and relevant_docs[0][2] > relevant_docs[1][2] * 2:
return relevant_docs[:1]` else `return relevant_docs[:2]`. -/
def dominanceCut (ranked : List Cand) : List Cand :=
  match ranked with
  | a :: b :: rest =>
      if b.score * 2 < a.score then (a :: b :: rest).take 1
      else (a :: b :: rest).take 2
  | l => l.take 2

/-- Models `find_relevant_documents` (web_app.py lines 56-129), as a function of
the scanned corpus and the query. -/
def find_relevant_documents (corpus : List Doc) (query : Str) : List Cand :=
  dominanceCut (rankedCands corpus query)

/-- Score-descending relation used to state sortedness of the ranking. -/
def scoreGE (a b : Cand) : Prop := b.score ≤ a.score

theorem insertCand_split (x : Cand) (l : List Cand) :
    ∃ l1 l2, l = l1 ++ l2 ∧ insertCand x l = l1 ++ x :: l2 ∧
      ∀ y ∈ l1, x.score < y.score := by
  induction l with
  | nil => exact ⟨[], [], rfl, rfl, by simp⟩
  | cons y ys ih =>
    by_cases h : y.score ≤ x.score
    · exact ⟨[], y :: ys, rfl, by simp [insertCand, h], by simp⟩
    · obtain ⟨l1, l2, h1, h2, h3⟩ := ih
      refine ⟨y :: l1, l2, by simp [h1], by simp [insertCand, h, h2], ?_⟩
      intro z hz
      rcases List.mem_cons.mp hz with hz | hz
      · subst hz; exact Nat.lt_of_not_le h
      · exact h3 z hz

theorem mem_insertCand {c x : Cand} {l : List Cand} :
    c ∈ insertCand x l ↔ c = x ∨ c ∈ l := by
  obtain ⟨l1, l2, h1, h2, _⟩ := insertCand_split x l
  subst h1
  simp [h2]
  tauto

theorem mem_sortCands {c : Cand} {l : List Cand} :
    c ∈ sortCands l ↔ c ∈ l := by
  induction l with
  | nil => simp [sortCands]
  | cons a l ih => simp [sortCands, mem_insertCand, ih]

theorem pairwise_insertCand {x : Cand} {l : List Cand}
    (h : List.Pairwise scoreGE l) : List.Pairwise scoreGE (insertCand x l) := by
  induction l with
  | nil => simp [insertCand, scoreGE]
  | cons y ys ih =>
    rw [List.pairwise_cons] at h
    by_cases hle : y.score ≤ x.score
    · rw [insertCand, if_pos hle, List.pairwise_cons]
      refine ⟨?_, List.pairwise_cons.mpr h⟩
      intro z hz
      rcases List.mem_cons.mp hz with hz | hz
      · subst hz; exact hle
      · exact Nat.le_trans (h.1 z hz) hle
    · rw [insertCand, if_neg hle, List.pairwise_cons]
      refine ⟨?_, ih h.2⟩
      intro z hz
      rcases mem_insertCand.mp hz with hz | hz
      · subst hz
        exact Nat.le_of_lt (Nat.lt_of_not_le hle)
      · exact h.1 z hz

theorem pairwise_sortCands (l : List Cand) :
    List.Pairwise scoreGE (sortCands l) := by
  induction l with
  | nil => simp [sortCands]
  | cons a l ih => exact pairwise_insertCand ih

theorem filter_sortCands (l : List Cand) (s : Nat) :
    (sortCands l).filter (fun c => c.score == s)
      = l.filter (fun c => c.score == s) := by
  induction l with
  | nil => rfl
  | cons a l ih =>
    obtain ⟨l1, l2, h1, h2, h3⟩ := insertCand_split a (sortCands l)
    have hl : l.filter (fun c => c.score == s)
        = l1.filter (fun c => c.score == s) ++ l2.filter (fun c => c.score == s) := by
      rw [← ih, h1, List.filter_append]
    by_cases hs : a.score = s
    · have hl1 : l1.filter (fun c => c.score == s) = [] := by
        rw [List.filter_eq_nil_iff]
        intro y hy
        have := h3 y hy
        simp only [beq_iff_eq]
        omega
      simp [sortCands, h2, List.filter_append, List.filter_cons, hs, hl, hl1]
    · simp [sortCands, h2, List.filter_append, List.filter_cons, hs, hl]

theorem dominanceCut_take (l : List Cand) :
    dominanceCut l = l.take 1 ∨ dominanceCut l = l.take 2 := by
  match l with
  | [] => right; rfl
  | [a] => right; rfl
  | a :: b :: rest =>
    by_cases h : b.score * 2 < a.score
    · left; simp [dominanceCut, h]
    · right; simp [dominanceCut, h]

theorem mem_dominanceCut {c : Cand} {l : List Cand} (h : c ∈ dominanceCut l) :
    c ∈ l := by
  rcases dominanceCut_take l with hd | hd <;> rw [hd] at h <;>
    exact List.take_subset _ _ h

/-- Witness corpus, first document: a PTO policy text file that extracts
successfully. -/
def docAW : Doc :=
  ⟨ "pto_policy".data, "documents/pto_policy.txt".data,
    .ok ("vacation days info".data) ⟩

/-- Witness corpus, second document: a holiday schedule text file that
extracts successfully. -/
def docBW : Doc :=
  ⟨ "holiday_schedule".data, "documents/holiday_schedule.txt".data,
    .ok ("holiday leave info".data) ⟩

/-- Witness corpus used to instantiate the universally quantified theorems
on concrete inputs. -/
def corpusW : List Doc := [ docAW, docBW ]

/-- Witness query: on `corpusW` it admits both documents with total scores
17 and 7. -/
def queryW : Str := "vacation holiday leave".data

/-- C1: for every query and corpus the Relevance Matcher returns at most 2
candidates; admitted candidates are ordered by total score descending,
stably on ties (at each score value the returned order is the admission
order); and whenever at least two candidates remain after ranking, only
the top candidate is returned when its score exceeds twice the second
score, and exactly the top two are returned otherwise.  Moreover whenever
two candidates are returned, the first score does not exceed twice the
second. -/
theorem C1_matcher_cutoff (corpus : List Doc) (query : Str) :
    (find_relevant_documents corpus query).length ≤ 2 ∧
    List.Pairwise scoreGE (find_relevant_documents corpus query) ∧
    (∀ s, (rankedCands corpus query).filter (fun c => c.score == s)
        = (admittedCands corpus query).filter (fun c => c.score == s)) ∧
    (∀ a b rest, rankedCands corpus query = a :: b :: rest →
      (b.score * 2 < a.score → find_relevant_documents corpus query = [a]) ∧
      (¬ b.score * 2 < a.score → find_relevant_documents corpus query = [a, b])) ∧
    (∀ a b, find_relevant_documents corpus query = [a, b] →
      a.score ≤ b.score * 2) := by
  refine ⟨?_, ?_, ?_, ?_, ?_⟩
  · rcases dominanceCut_take (rankedCands corpus query) with hd | hd <;>
      rw [find_relevant_documents, hd]
    · exact Nat.le_trans (List.length_take_le _ _) (by omega)
    · exact List.length_take_le _ _
  · rcases dominanceCut_take (rankedCands corpus query) with hd | hd <;>
      rw [find_relevant_documents, hd] <;>
      exact List.Pairwise.sublist (List.take_sublist _ _) (pairwise_sortCands _)
  · intro s
    exact filter_sortCands (admittedCands corpus query) s
  · intro a b rest h
    constructor <;> intro hcmp <;>
      simp [find_relevant_documents, h, dominanceCut, hcmp]
  · intro a b h
    rw [find_relevant_documents] at h
    match hr : rankedCands corpus query with
    | [] => rw [hr] at h; simp [dominanceCut] at h
    | [x] => rw [hr] at h; simp [dominanceCut] at h
    | x :: y :: rest =>
      rw [hr] at h
      by_cases hcmp : y.score * 2 < x.score
      · simp [dominanceCut, hcmp] at h
      · simp [dominanceCut, hcmp] at h
        obtain ⟨rfl, rfl⟩ := h
        omega

/-- Concrete witness for C1: on a two-document corpus whose ranked scores
are 17 and 7, the dominance rule fires (17 > 2·7) and only the top
candidate is returned. -/
theorem C1_matcher_cutoff_witness :
    find_relevant_documents corpusW queryW
      = [ ⟨ "pto_policy".data, "documents/pto_policy.txt".data, 17,
            "vacation days info".data ⟩ ] :=
  ((C1_matcher_cutoff corpusW queryW).2.2.2.1
    ⟨ "pto_policy".data, "documents/pto_policy.txt".data, 17,
      "vacation days info".data ⟩
    ⟨ "holiday_schedule".data, "documents/holiday_schedule.txt".data, 7,
      "holiday leave info".data ⟩
    [] (by decide)).1 (by decide)

/-- C2: every candidate returned by the Relevance Matcher was admitted by
the dual gate: its total score is at least 5 and at least one of
name matches > 0, content matches > 2, or pattern score > 0 holds for it
(the match counts being recomputed from the candidate's own name and
content); in particular no candidate has a total score below 5. -/
theorem C2_admission_gate (corpus : List Doc) (query : Str) (c : Cand)
    (hc : c ∈ find_relevant_documents corpus query) :
    5 ≤ c.score ∧
      (0 < name_matches_of query c.name ∨
       2 < content_matches_of query c.content ∨
       0 < best_pattern_score (lowerS query) (lowerS c.name)) := by
  have hmem : c ∈ admittedCands corpus query :=
    mem_sortCands.mp (mem_dominanceCut hc)
  rw [admittedCands, List.mem_filterMap] at hmem
  obtain ⟨d, _, hd⟩ := hmem
  simp only [scoreDoc] at hd
  split at hd
  · next hgate =>
    injection hd with hd
    subst hd
    exact hgate
  · exact absurd hd (by simp)

/-- Concrete witness for C2: the top candidate of the witness corpus passes
the gate. -/
theorem C2_admission_gate_witness :
    5 ≤ (17 : Nat) ∧
      (0 < name_matches_of queryW ("pto_policy".data) ∨
       2 < content_matches_of queryW ("vacation days info".data) ∨
       0 < best_pattern_score (lowerS queryW) (lowerS ("pto_policy".data))) :=
  C2_admission_gate corpusW queryW
    ⟨ "pto_policy".data, "documents/pto_policy.txt".data, 17,
      "vacation days info".data ⟩ (by decide)

/-- C9: the Relevance Matcher is a pure function of the scanned corpus and
the query: two runs on equal corpus content and equal queries return the
identical candidate list (same candidates, order and scores). -/
theorem C9_matcher_deterministic (c1 c2 : List Doc) (q1 q2 : Str)
    (hc : c1 = c2) (hq : q1 = q2) :
    find_relevant_documents c1 q1 = find_relevant_documents c2 q2 := by
  subst hc
  subst hq
  rfl

/-- Concrete witness for C9 at the witness corpus and query. -/
theorem C9_matcher_deterministic_witness :
    find_relevant_documents corpusW queryW = find_relevant_documents corpusW queryW :=
  C9_matcher_deterministic corpusW corpusW queryW queryW rfl rfl

/-- Underscore-separated tokens of an identifier or topic name, used to
formalize the claim wording "split on separators shares a token". -/
def splitTokens (s : Str) : List Str :=
  (s.splitOn '_').filter (fun t => t ≠ [])

/-- The claim wording for C7: the document identifier, split on separators,
shares a whole token with the topic name. -/
def sharesToken (doc_name topic : Str) : Bool :=
  (splitTokens doc_name).any (fun tok => (splitTokens topic).contains tok)

/-- Formalization of claim C7 exactly as worded: the maximum over topics of
the count of that topic's keywords appearing as substrings of the
lowercased query, that count being multiplied by 5 only when the
document's identifier (split on separators) shares a token with the topic
name (and left unmultiplied otherwise). -/
def claimPatternScore (query_lower doc_name : Str) : Nat :=
  doc_patterns.foldl
    (fun best t =>
      let cnt := (t.2.filter (fun kw => strContains query_lower kw)).length
      max best (if sharesToken doc_name t.1 then cnt * 5 else cnt))
    0

/-- Counterexample to C7 as stated.  First input: document `notes`, query
`vacation`: no topic shares a token with (or is a substring part of)
`notes`, so the code scores 0, while the claim formula keeps the
unmultiplied keyword count 1 of topic `pto_policy`.  Second input:
document `reorganize`, query `organization structure`: the code's check is
a substring test (`org` occurs inside `reorganize`) and scores 2·5 = 10,
while the claim's whole-token check fails (`reorganize` shares no token
with `org_structure`), leaving 2. -/
theorem C7_counterexample :
    claimPatternScore ("vacation".data) ("notes".data)
        ≠ best_pattern_score ("vacation".data) ("notes".data) ∧
      claimPatternScore ("organization structure".data) ("reorganize".data)
        ≠ best_pattern_score ("organization structure".data) ("reorganize".data) := by
  decide

theorem foldl_running_max {α : Type} (f : α → Nat) (l : List α) (init : Nat) :
    (∀ t ∈ l, f t ≤ l.foldl (fun best t => if best < f t then f t else best) init) ∧
      init ≤ l.foldl (fun best t => if best < f t then f t else best) init ∧
      (l.foldl (fun best t => if best < f t then f t else best) init = init ∨
        ∃ t ∈ l, l.foldl (fun best t => if best < f t then f t else best) init = f t) := by
  induction l generalizing init with
  | nil => simp
  | cons a l ih =>
    simp only [List.foldl_cons]
    by_cases h : init < f a
    · simp only [if_pos h]
      obtain ⟨ih1, ih2, ih3⟩ := ih (f a)
      refine ⟨?_, by omega, ?_⟩
      · intro t ht
        rcases List.mem_cons.mp ht with rfl | ht
        · exact ih2
        · exact ih1 t ht
      · rcases ih3 with ih3 | ⟨t, ht, ih3⟩
        · exact Or.inr ⟨a, List.mem_cons_self a l, ih3⟩
        · exact Or.inr ⟨t, List.mem_cons_of_mem a ht, ih3⟩
    · simp only [if_neg h]
      obtain ⟨ih1, ih2, ih3⟩ := ih init
      refine ⟨?_, ih2, ?_⟩
      · intro t ht
        rcases List.mem_cons.mp ht with rfl | ht
        · omega
        · exact ih1 t ht
      · rcases ih3 with ih3 | ⟨t, ht, ih3⟩
        · exact Or.inl ih3
        · exact Or.inr ⟨t, List.mem_cons_of_mem a ht, ih3⟩

/-- C7 as amended: the pattern score is the maximum over topics of the
per-topic value, where the per-topic value is 5 times the count of that
topic's keywords occurring as substrings of the lowercased query when some
underscore-separated part of the topic name occurs as a substring of the
lowercased document identifier, and 0 otherwise: every per-topic value is
dominated by the score, and the score is 0 or attained by some topic. -/
theorem C7_pattern_score_amended (query_lower doc_name_lower : Str) :
    (∀ t ∈ doc_patterns,
        topicValue query_lower doc_name_lower t
          ≤ best_pattern_score query_lower doc_name_lower) ∧
      (best_pattern_score query_lower doc_name_lower = 0 ∨
        ∃ t ∈ doc_patterns,
          best_pattern_score query_lower doc_name_lower
            = topicValue query_lower doc_name_lower t) := by
  obtain ⟨h1, _, h3⟩ :=
    foldl_running_max (topicValue query_lower doc_name_lower) doc_patterns 0
  exact ⟨h1, h3⟩

/-- Concrete witness for the amended C7: for the witness query and document
name the score is attained at the `pto_policy` topic value 15 and
dominates the `employee_handbook` value. -/
theorem C7_pattern_score_amended_witness :
    topicValue (lowerS queryW) ("pto_policy".data)
        ((doc_patterns.get ⟨0, by decide⟩))
        ≤ best_pattern_score (lowerS queryW) ("pto_policy".data) ∧
      (best_pattern_score (lowerS queryW) ("pto_policy".data) = 0 ∨
        ∃ t ∈ doc_patterns,
          best_pattern_score (lowerS queryW) ("pto_policy".data)
            = topicValue (lowerS queryW) ("pto_policy".data) t) :=
  ⟨ (C7_pattern_score_amended (lowerS queryW) ("pto_policy".data)).1
      (doc_patterns.get ⟨0, by decide⟩) (List.get_mem ..),
    (C7_pattern_score_amended (lowerS queryW) ("pto_policy".data)).2 ⟩

/-- An excerpt dictionary as built by `get_document_excerpts`
(web_app.py lines 155-159): document name, full cleaned text, and the
short highlight used only for display. -/
structure Excerpt where
  document : Str
  text : Str
  highlight : Str
deriving DecidableEq, Repr

/-- The ellipsis marker appended to over-long highlights
(web_app.py line 153). -/
def ellipsisS : Str := "...".data

/-- Models `get_document_excerpts` (web_app.py lines 131-161): for each candidate,
the full document content with blank lines stripped, plus a highlight made
of the first two lines containing a query word (falling back to the first
200 characters), truncated at 200 characters with an ellipsis. -/
def get_document_excerpts (relevant_docs : List Cand) (query : Str) : List Excerpt :=
  let query_words := ((splitWs query).filter (fun w => 2 < w.length)).map lowerS
  relevant_docs.map (fun c =>
    let cleaned_content :=
      List.intercalate [ '\n' ]
        (((c.content.splitOn '\n').map stripS).filter (fun line => line ≠ []))
    let highlight_lines :=
      ((c.content.splitOn '\n').filter
        (fun line => query_words.any (fun w => strContains (lowerS line) w))).map stripS
    let highlight0 :=
      if highlight_lines = [] then c.content.take 200
      else List.intercalate [ '\n' ] (highlight_lines.take 2)
    let highlight :=
      if 200 < highlight0.length then highlight0.take 200 ++ ellipsisS
      else highlight0
    ⟨c.name, cleaned_content, highlight⟩)

/-- The document-name check of the source filter (web_app.py line 330):
some word-separator token of the lowercased document name occurs verbatim
in the lowercased response. -/
def nameMentioned (response_lower : Str) (e : Excerpt) : Bool :=
  (splitWs (replaceChar '_' ' ' (lowerS e.document))).any
    (fun part => strContains response_lower part)

/-- Models `key_phrases_from_doc` (web_app.py line 325): the first 3 fragments of
the lowercased excerpt text, split on periods, whose stripped length
exceeds 20 characters. -/
def keyPhrases (e : Excerpt) : List Str :=
  ((((lowerS e.text).splitOn '.').map stripS).filter
    (fun phrase => 20 < phrase.length)).take 3

/-- The significant words of a key phrase (web_app.py line 336): its
whitespace tokens of length above 4. -/
def significantWords (phrase : Str) : List Str :=
  (splitWs phrase).filter (fun w => 4 < w.length)

/-- The per-phrase body of the source filter loop (web_app.py lines
334-341): a phrase counts as echoed when it has at least 2 significant
words and at least 60% of them occur in the lowercased response.  The
Python comparison `matching_words >= len(phrase_words) * 0.6` is modelled
exactly by the integer inequality 3·len ≤ 5·matching. -/
def phraseEcho (response_lower : Str) (phrase : Str) : Bool :=
  let phrase_words := significantWords phrase
  if 2 ≤ phrase_words.length then
    let matching_words :=
      (phrase_words.filter (fun w => strContains response_lower w)).length
    decide (3 * phrase_words.length ≤ 5 * matching_words)
  else false

/-- Models `is_referenced` for one excerpt (web_app.py lines 320-341): the name
check, or some key phrase echoed.  The Python loop only ever sets the flag
and breaks on success, which is exactly `List.any`. -/
def is_referenced (response_lower : Str) (e : Excerpt) : Bool :=
  nameMentioned response_lower e || (keyPhrases e).any (phraseEcho response_lower)

/-- The source filter of `process_query` (web_app.py lines 317-345): keep,
in order, exactly the excerpts marked referenced. -/
def filter_actual_sources (response : Str) (excerpts : List Excerpt) : List Excerpt :=
  excerpts.filter (fun e => is_referenced (lowerS response) e)

/-- C3: for every generated answer text and input candidate sequence, the
Source Attribution Verifier's output is a sublist of its input (so a
subset that preserves the input's original order and adds nothing), and
hence so is the sequence of returned document identifiers. -/
theorem C3_attribution_subset (response : Str) (excerpts : List Excerpt) :
    (filter_actual_sources response excerpts).Sublist excerpts ∧
      ((filter_actual_sources response excerpts).map Excerpt.document).Sublist
        (excerpts.map Excerpt.document) :=
  ⟨List.filter_sublist excerpts, List.Sublist.map _ (List.filter_sublist excerpts)⟩

theorem phraseEcho_eq_true {response_lower phrase : Str} :
    phraseEcho response_lower phrase = true ↔
      2 ≤ (significantWords phrase).length ∧
        3 * (significantWords phrase).length
          ≤ 5 * ((significantWords phrase).filter
              (fun w => strContains response_lower w)).length := by
  rw [phraseEcho]
  by_cases h : 2 ≤ (significantWords phrase).length
  · simp [h]
  · simp [h]

/-- C4: a candidate none of whose identifier tokens appears in the
lowercased answer text is marked referenced if and only if some key phrase
(among the first 3 period-split fragments of its text whose trimmed length
exceeds 20 characters) retains at least 2 words longer than 4 characters
and at least the fraction 0.6 of those words occur, as case-insensitive
substrings, in the answer text. -/
theorem C4_content_echo (response_lower : Str) (e : Excerpt)
    (h : nameMentioned response_lower e = false) :
    is_referenced response_lower e = true ↔
      ∃ phrase ∈ keyPhrases e,
        2 ≤ (significantWords phrase).length ∧
          3 * (significantWords phrase).length
            ≤ 5 * ((significantWords phrase).filter
                (fun w => strContains response_lower w)).length := by
  rw [is_referenced, h, Bool.false_or, List.any_eq_true]
  constructor
  · rintro ⟨p, hp, he⟩
    exact ⟨p, hp, phraseEcho_eq_true.mp he⟩
  · rintro ⟨p, hp, he⟩
    exact ⟨p, hp, phraseEcho_eq_true.mpr he⟩

/-- Witness excerpt for C4: a PTO policy excerpt whose identifier tokens
are absent from the witness answer text. -/
def excerptW : Excerpt :=
  ⟨ "pto_policy".data,
    "Employees receive fifteen vacation days annually each calendar year.".data,
    [] ⟩

/-- Witness answer text for C4: mentions neither `pto` nor `policy`, but
echoes four of the six significant words of the excerpt's key phrase. -/
def responseW : Str := "you receive fifteen vacation days annually".data

/-- Concrete witness for C4 at the witness excerpt and answer text. -/
theorem C4_content_echo_witness :
    nameMentioned responseW excerptW = false ∧
      (is_referenced responseW excerptW = true ↔
        ∃ phrase ∈ keyPhrases excerptW,
          2 ≤ (significantWords phrase).length ∧
            3 * (significantWords phrase).length
              ≤ 5 * ((significantWords phrase).filter
                  (fun w => strContains responseW w)).length) :=
  ⟨by decide, C4_content_echo responseW excerptW (by decide)⟩

/-- Models `classify_query_type` (web_app.py lines 215-232): first matching fixed
topic bucket, in the listed order. -/
def classify_query_type (query : Str) : Str :=
  let query_lower := lowerS query
  if [ "pto".data, "vacation".data, "time off".data, "leave".data,
       "holiday".data ].any (fun w => strContains query_lower w) then
    "PTO & Leave".data
  else if [ "health".data, "medical".data, "benefits".data, "insurance".data,
            "dental".data ].any (fun w => strContains query_lower w) then
    "Health Benefits".data
  else if [ "security".data, "password".data, "it policy".data, "vpn".data,
            "network".data ].any (fun w => strContains query_lower w) then
    "IT Security".data
  else if [ "handbook".data, "policy".data, "employee".data, "work hours".data,
            "dress code".data ].any (fun w => strContains query_lower w) then
    "Employee Handbook".data
  else if [ "org".data, "organization".data, "structure".data, "contact".data,
            "email".data, "phone".data ].any (fun w => strContains query_lower w) then
    "Organization".data
  else if [ "claude".data, "ai".data, "usage".data, "policy".data ].any
      (fun w => strContains query_lower w) then
    "AI Usage".data
  else
    "General".data

/-- Per-user record inside `usage_analytics['users']` (web_app.py lines
245-256); the Python set of departments is modelled as a duplicate-free
list in insertion order. -/
structure UserData where
  query_count : Nat
  first_seen : Str
  last_seen : Str
  departments : List Str
deriving DecidableEq, Repr

/-- Python `set.add`: append the element when absent. -/
def setAdd (d : Str) (l : List Str) : List Str :=
  if l.contains d then l else l ++ [d]

/-- Python dict assignment `d[k] = v`: the value at an existing key is
replaced in place, a new key is appended (insertion order preserved). -/
def updateAssoc {β : Type} (k : Str) (v : β) : List (Str × β) → List (Str × β)
  | [] => [ (k, v) ]
  | (k2, v2) :: rest =>
      if k2 = k then (k2, v) :: rest else (k2, v2) :: updateAssoc k v rest

/-- The counter-dictionary idiom `if k not in d: d[k] = 0; d[k] += 1`. -/
def bumpCounter (k : Str) (m : List (Str × Nat)) : List (Str × Nat) :=
  updateAssoc k (((m.lookup k).getD 0) + 1) m

/-- The `usage_analytics` global dictionary (web_app.py lines 23-34).
Response times are opaque numbers here (only their count matters to the
analytics bounds), modelled as Int. -/
structure Analytics where
  total_queries : Nat
  users : List (Str × UserData)
  departments : List (Str × Nat)
  documents_accessed : List (Str × Nat)
  query_types : List (Str × Nat)
  daily_usage : List (Str × Nat)
  response_times : List Int
  popular_queries : List Str
  session_durations : List (Str × Int)
  error_count : Nat
deriving DecidableEq, Repr

/-- The initial `usage_analytics` value (web_app.py lines 23-34). -/
def initAnalytics : Analytics :=
  ⟨0, [], [], [], [], [], [], [], [], 0⟩

/-- Models `log_usage_analytics` (web_app.py lines 234-293).  `today` stands for
`datetime.now().strftime('%Y-%m-%d')`.  Response times keep the last 100
entries, popular queries keep the last 50 entries of the query truncated
to 100 characters, and the error counter moves only when
`error_occurred`. -/
def log_usage_analytics (s : Analytics) (today user_id department query : Str)
    (response_time : Int) (documents_used : List Excerpt)
    (error_occurred : Bool) : Analytics :=
  let base := (s.users.lookup user_id).getD ⟨0, today, today, []⟩
  let user_data : UserData :=
    ⟨base.query_count + 1, base.first_seen, today,
      setAdd department base.departments⟩
  let rts := s.response_times ++ [ response_time ]
  let pq := s.popular_queries ++ [ query.take 100 ]
  { total_queries := s.total_queries + 1
    users := updateAssoc user_id user_data s.users
    departments := bumpCounter department s.departments
    documents_accessed :=
      documents_used.foldl (fun m d => bumpCounter d.document m) s.documents_accessed
    query_types := bumpCounter (classify_query_type query) s.query_types
    daily_usage := bumpCounter today s.daily_usage
    response_times := if 100 < rts.length then rts.drop (rts.length - 100) else rts
    popular_queries := if 50 < pq.length then pq.drop (pq.length - 50) else pq
    session_durations := s.session_durations
    error_count := if error_occurred then s.error_count + 1 else s.error_count }

/-- The bounds claim C10 speaks about: at most 100 stored response times,
at most 50 stored recent queries, every stored query at most 100
characters long. -/
def AnalyticsInv (s : Analytics) : Prop :=
  s.response_times.length ≤ 100 ∧
    s.popular_queries.length ≤ 50 ∧
    ∀ q ∈ s.popular_queries, q.length ≤ 100

instance (s : Analytics) : Decidable (AnalyticsInv s) := by
  unfold AnalyticsInv
  infer_instance

/-- C10: every call to the analytics update hook preserves the analytics
bounds: afterwards the stored response-times list still holds at most 100
entries, the stored recent-queries list at most 50 entries, and every
stored query string has length at most 100 characters. -/
theorem C10_analytics_bounds (s : Analytics)
    (today user_id department query : Str) (response_time : Int)
    (documents_used : List Excerpt) (error_occurred : Bool)
    (h : AnalyticsInv s) :
    AnalyticsInv (log_usage_analytics s today user_id department query
      response_time documents_used error_occurred) := by
  obtain ⟨h1, h2, h3⟩ := h
  refine ⟨?_, ?_, ?_⟩
  · simp only [log_usage_analytics]
    split
    · rw [List.length_drop]
      omega
    · next hlen =>
      rw [List.length_append] at hlen ⊢
      omega
  · simp only [log_usage_analytics]
    split
    · rw [List.length_drop]
      omega
    · next hlen =>
      rw [List.length_append] at hlen ⊢
      omega
  · simp only [log_usage_analytics]
    intro q hq
    have hq2 : q ∈ s.popular_queries ++ [ query.take 100 ] := by
      revert hq
      split
      · intro hq
        exact List.drop_subset _ _ hq
      · exact fun hq => hq
    rcases List.mem_append.mp hq2 with hq2 | hq2
    · exact h3 q hq2
    · rw [List.mem_singleton] at hq2
      subst hq2
      exact List.length_take_le 100 query

/-- Concrete witness for C10: the initial analytics state satisfies the
bounds, and they still hold after logging one request. -/
theorem C10_analytics_bounds_witness :
    AnalyticsInv (log_usage_analytics initAnalytics ("2026-01-01".data)
      ("john.doe".data) ("Admin".data) ("vacation".data) 1 [] false) :=
  C10_analytics_bounds initAnalytics ("2026-01-01".data) ("john.doe".data)
    ("Admin".data) ("vacation".data) 1 [] false (by decide)

/-- One caller-supplied conversation message (role and content), as read at
web_app.py lines 174-176. -/
structure ConvMsg where
  role : Str
  content : Str
deriving DecidableEq, Repr

/-- Outcome of the external generative call inside `generate_response`
(web_app.py lines 200-210): either the content-block texts of a successful
reply, or the string of the raised exception. -/
inductive GenOutcome where
  | ok (blocks : List Str)
  | err (detail : Str)
deriving DecidableEq, Repr

/-- The fixed apology returned when the successful reply carries no content
(web_app.py line 210). -/
def noContentApology : Str :=
  "I apologize, but I couldn\x27t generate a proper response.".data

/-- The fixed apology prefix returned when the external call raises
(web_app.py line 213); the error detail is appended to it. -/
def errorApologyPrefix : Str :=
  ("I apologize, but I encountered an error processing your request. " ++
   "Please try again or contact IT support at it-help@company.com. Error: ").data

/-- Models `generate_response` (web_app.py lines 163-213), given the outcome of
the external call.  The prompt assembled from query, context and the last
4 conversation turns is forwarded opaquely to the external service and
does not influence the returned value once the outcome is fixed; the
unconfigured-client early return is not modelled (the app is assumed
initialized).  On success the first content block's text is returned; an
empty reply yields the fixed no-content apology; a raised exception is
caught and yields the fixed apology with the error detail appended. -/
def generate_response (query context : Str) (conversation_history : List ConvMsg)
    (outcome : GenOutcome) : Str :=
  match outcome with
  | .ok [] => noContentApology
  | .ok (b :: _) => b
  | .err e => errorApologyPrefix ++ e

/-- The context block concatenation of `process_query` (web_app.py lines
306-311): `"\n\n{doc_label} - {document}:\n{text}"` per excerpt, with
labels `Document_1`, `Document_2`, ... -/
def buildContext (excerpts : List Excerpt) : Str :=
  (excerpts.enum).foldl
    (fun acc ie =>
      acc ++ ('\n' :: '\n' :: ("Document_".data ++ (Nat.repr (ie.1 + 1)).data))
          ++ (" - ".data) ++ ie.2.document ++ (':' :: '\n' :: ie.2.text))
    []

/-- The optimization tip attached when sources are non-empty
(web_app.py line 356), without the leading emoji glyph. -/
def optimizationTip : Str :=
  "Click on document links to view the full source documents".data

/-- The per-query result dictionary of `process_query`
(web_app.py lines 352-357). -/
structure QueryResult where
  response : Str
  sources : List Excerpt
  processing_time : Int
  optimization_tips : List Str
deriving DecidableEq, Repr

/-- Models `process_query` (web_app.py lines 295-363): retrieval, context
assembly, generation, source attribution, analytics logging; returns the
result and the updated analytics state.  `elapsed` stands for the wall
clock difference taken at line 347.  `error_occurred` is initialized False
and is never set on the success path: `generate_response` catches the
generator exception internally, so the except-branch of `process_query`
(lines 359-363) is unreachable for generator failures and the logging call
at line 350 always receives `error_occurred=False`. -/
def process_query (corpus : List Doc) (s : Analytics) (today : Str)
    (outcome : GenOutcome) (elapsed : Int)
    (query user_id department : Str) (conversation_history : List ConvMsg) :
    QueryResult × Analytics :=
  let relevant_docs := find_relevant_documents corpus query
  let document_excerpts := get_document_excerpts relevant_docs query
  let context := buildContext document_excerpts
  let response := generate_response query context conversation_history outcome
  let actual_sources := filter_actual_sources response document_excerpts
  let s2 := log_usage_analytics s today user_id department query elapsed
    actual_sources false
  (⟨response, actual_sources, elapsed,
      if actual_sources = [] then [] else [ optimizationTip ]⟩, s2)

/-- Counterexample to C6 as stated: on a request whose external generator
call errors, the error counter is NOT incremented — the generator failure
is swallowed inside `generate_response`, so `process_query` logs the
request with `error_occurred=False` and analytics counts it as a success.
Here a concrete failing request leaves `error_count` at its initial value
0 instead of the claimed 1. -/
theorem C6_counterexample :
    (process_query [] initAnalytics ("2026-01-01".data)
        (GenOutcome.err ("boom".data)) 1 ("hello".data) ("u1".data)
        ("Eng".data) []).2.error_count = initAnalytics.error_count ∧
      (process_query [] initAnalytics ("2026-01-01".data)
        (GenOutcome.err ("boom".data)) 1 ("hello".data) ("u1".data)
        ("Eng".data) []).2.error_count ≠ initAnalytics.error_count + 1 := by
  decide

/-- C6 as amended: when the external generator call errors, the caller
receives the fixed apology string with the error detail appended, and when
it returns no content the caller receives the fixed generic apology; in
both cases the request is logged as a success: the analytics error counter
is unchanged. -/
theorem C6_generator_failure_amended (corpus : List Doc) (s : Analytics)
    (today : Str) (elapsed : Int) (query user_id department : Str)
    (conversation_history : List ConvMsg) (e : Str) :
    ((process_query corpus s today (GenOutcome.err e) elapsed query user_id
        department conversation_history).1.response = errorApologyPrefix ++ e ∧
      (process_query corpus s today (GenOutcome.err e) elapsed query user_id
        department conversation_history).2.error_count = s.error_count) ∧
    ((process_query corpus s today (GenOutcome.ok []) elapsed query user_id
        department conversation_history).1.response = noContentApology ∧
      (process_query corpus s today (GenOutcome.ok []) elapsed query user_id
        department conversation_history).2.error_count = s.error_count) := by
  refine ⟨⟨rfl, ?_⟩, rfl, ?_⟩ <;>
    simp [process_query, log_usage_analytics]

/-- Witness document for C5 whose text extraction fails. -/
def docFailW : Doc :=
  ⟨ "pto_policy".data, "documents/pto_policy.txt".data,
    .error ("disk failure".data) ⟩

/-- Witness query for C5. -/
def queryFailW : Str := "vacation leave holiday".data

/-- Counterexample to C5 as stated: a document whose extraction fails is
NOT excluded from scoring.  `extract_text_from_file` swallows the
exception and returns the error-message string, which the scan then scores
like ordinary content; here the failing document is admitted (pattern
score 15 from its name alone) and returned as the sole candidate, with the
error message standing as its content.  No per-document diagnostic exists
in the code: the only logging in `find_relevant_documents` is the
whole-scan except-branch, which returns an empty list. -/
theorem C5_counterexample :
    find_relevant_documents [ docFailW ] queryFailW
      = [ ⟨ "pto_policy".data, "documents/pto_policy.txt".data, 15,
            errMessage ("documents/pto_policy.txt".data)
              ("disk failure".data) ⟩ ] := by
  decide

/-- C5 as amended: a single document's extraction failure never aborts the
scan and never changes the scoring of the other documents; the failing
document itself is scored exactly as if its content were the
`Error reading {path}: {detail}` message string (and is therefore excluded
only when that text fails the admission gate): the matcher's result is
identical under that substitution, whatever surrounds the document. -/
theorem C5_extraction_failure_amended (c1 c2 : List Doc) (query : Str)
    (name path detail : Str) :
    find_relevant_documents (c1 ++ ⟨name, path, .error detail⟩ :: c2) query
      = find_relevant_documents
          (c1 ++ ⟨name, path, .ok (errMessage path detail)⟩ :: c2) query := by
  have h : scoreDoc query ⟨name, path, .error detail⟩
      = scoreDoc query ⟨name, path, .ok (errMessage path detail)⟩ := rfl
  simp [find_relevant_documents, rankedCands, admittedCands,
    List.filterMap_append, List.filterMap_cons, h]

/-- Helper for `splitext`: split a character list at its LAST dot (the dot
opening the extension), or `none` when it has no dot.  The recursion
prefers a split found in the tail, which is why the last dot wins. -/
def splitextCore : List Char → Option (List Char × List Char)
  | [] => none
  | c :: cs =>
    match splitextCore cs with
    | some (stem, ext) => some (c :: stem, ext)
    | none => if c = '.' then some ([], '.' :: cs) else none

/-- Models `os.path.splitext` on a bare filename (no directory part): split
at the last dot, except that a name whose characters before that dot are
all dots (e.g. `.bashrc`) has an empty extension. -/
def splitext (s : Str) : Str × Str :=
  match splitextCore s with
  | some (stem, ext) =>
      if stem.any (fun c => c ≠ '.') then (stem, ext) else (s, [])
  | none => (s, [])

/-- The supported extension set of `DynamicDocumentProcessor`
(document_processor.py line 15). -/
def supported_extensions : List Str :=
  [ ".txt".data, ".pdf".data, ".doc".data, ".docx".data, ".rtf".data ]

/-- The document key derived from a filename (document_processor.py line
37): the stem with spaces, then hyphens, normalized to underscores. -/
def docKey (filename : Str) : Str :=
  replaceChar '-' '_' (replaceChar ' ' '_' (splitext filename).1)

/-- One entry of the `os.listdir` result: a name, plus whether
`os.path.isdir` holds for it. -/
structure FsEntry where
  name : Str
  isDir : Bool
deriving DecidableEq, Repr

/-- The body of the scan loop of `scan_documents_folder`
(document_processor.py lines 26-38): skip directories, test the lowercased
extension against the supported set, and store the document key with the
joined file path — a repeated key silently overwrites the earlier path. -/
def scanStep (documents : List (Str × Str)) (e : FsEntry) : List (Str × Str) :=
  if e.isDir then documents
  else if supported_extensions.contains (splitext (lowerS e.name)).2 then
    updateAssoc (docKey e.name) (("documents/".data) ++ e.name) documents
  else documents

/-- Models `DynamicDocumentProcessor.scan_documents_folder` (document_processor.py
lines 17-40) on a given folder listing; the missing-folder early return
corresponds to the empty listing. -/
def scan_documents_folder (listing : List FsEntry) : List (Str × Str) :=
  listing.foldl scanStep []

theorem updateAssoc_nil {β : Type} (k : Str) (v : β) :
    updateAssoc k v [] = [ (k, v) ] := rfl

theorem updateAssoc_cons {β : Type} (k : Str) (v : β) (k2 : Str) (v2 : β)
    (rest : List (Str × β)) :
    updateAssoc k v ((k2, v2) :: rest)
      = if k2 = k then (k2, v) :: rest
        else (k2, v2) :: updateAssoc k v rest := rfl

theorem mem_keys_updateAssoc {β : Type} (k k' : Str) (v : β)
    (d : List (Str × β)) :
    k' ∈ (updateAssoc k v d).map Prod.fst ↔
      k' = k ∨ k' ∈ d.map Prod.fst := by
  induction d with
  | nil =>
    rw [updateAssoc_nil]
    simp only [List.map_cons, List.map_nil, List.mem_singleton,
      List.not_mem_nil, or_false]
  | cons p rest ih =>
    obtain ⟨k2, v2⟩ := p
    by_cases h : k2 = k
    · subst h
      rw [updateAssoc_cons, if_pos rfl]
      simp only [List.map_cons, List.mem_cons]
      tauto
    · rw [updateAssoc_cons, if_neg h]
      simp only [List.map_cons, List.mem_cons, ih]
      tauto

theorem nodup_keys_updateAssoc {β : Type} (k : Str) (v : β)
    (d : List (Str × β)) (h : (d.map Prod.fst).Nodup) :
    ((updateAssoc k v d).map Prod.fst).Nodup := by
  induction d with
  | nil =>
    rw [updateAssoc_nil]
    simp only [List.map_cons, List.map_nil, List.nodup_cons,
      List.not_mem_nil, not_false_iff, List.nodup_nil, and_self]
  | cons p rest ih =>
    obtain ⟨k2, v2⟩ := p
    rw [List.map_cons, List.nodup_cons] at h
    by_cases hk : k2 = k
    · subst hk
      rw [updateAssoc_cons, if_pos rfl, List.map_cons, List.nodup_cons]
      exact h
    · rw [updateAssoc_cons, if_neg hk, List.map_cons, List.nodup_cons]
      refine ⟨?_, ih h.2⟩
      rw [mem_keys_updateAssoc]
      rintro (rfl | hmem)
      · exact hk rfl
      · exact h.1 hmem

theorem mem_keys_scanStep {k : Str} (d : List (Str × Str)) (e : FsEntry)
    (h : k ∈ d.map Prod.fst) : k ∈ (scanStep d e).map Prod.fst := by
  rw [scanStep]
  split
  · exact h
  split
  · exact (mem_keys_updateAssoc ..).mpr (Or.inr h)
  · exact h

theorem nodup_keys_scanStep (d : List (Str × Str)) (e : FsEntry)
    (h : (d.map Prod.fst).Nodup) : ((scanStep d e).map Prod.fst).Nodup := by
  rw [scanStep]
  split
  · exact h
  split
  · exact nodup_keys_updateAssoc _ _ _ h
  · exact h

theorem mem_keys_scanFold {k : Str} (listing : List FsEntry) :
    ∀ d : List (Str × Str), k ∈ d.map Prod.fst →
      k ∈ (listing.foldl scanStep d).map Prod.fst := by
  induction listing with
  | nil => exact fun d h => h
  | cons a l ih =>
    intro d h
    exact ih (scanStep d a) (mem_keys_scanStep d a h)

theorem nodup_keys_scanFold (listing : List FsEntry) :
    ∀ d : List (Str × Str), (d.map Prod.fst).Nodup →
      ((listing.foldl scanStep d).map Prod.fst).Nodup := by
  induction listing with
  | nil => exact fun d h => h
  | cons a l ih =>
    intro d h
    exact ih (scanStep d a) (nodup_keys_scanStep d a h)

theorem scanFold_covers (listing : List FsEntry) :
    ∀ d : List (Str × Str), ∀ e ∈ listing, e.isDir = false →
      supported_extensions.contains (splitext (lowerS e.name)).2 = true →
        docKey e.name ∈ (listing.foldl scanStep d).map Prod.fst := by
  induction listing with
  | nil => intro d e he; cases he
  | cons a l ih =>
    intro d e he hdir hext
    rcases List.mem_cons.mp he with rfl | he
    · apply mem_keys_scanFold l (scanStep d e)
      rw [scanStep, hdir]
      simp only [Bool.false_eq_true, if_false, hext, if_pos]
      exact (mem_keys_updateAssoc ..).mpr (Or.inl rfl)
    · exact ih (scanStep d a) e he hdir hext

/-- Counterexample to C8 as stated: two distinct supported filenames,
`a b.txt` and `a-b.txt`, are both normalized to the identifier `a_b`, and
scanning a folder holding both yields a single entry — the first document
is silently lost to the identifier collision. -/
theorem C8_counterexample :
    docKey ("a b.txt".data) = docKey ("a-b.txt".data) ∧
      ("a b.txt".data : Str) ≠ ("a-b.txt".data : Str) ∧
      (scan_documents_folder
        [ ⟨ "a b.txt".data, false ⟩, ⟨ "a-b.txt".data, false ⟩ ]).length = 1 := by
  decide

/-- C8 as amended: the identifiers in the scan result are pairwise
distinct only because the result is a map, and every supported
non-directory file's identifier does appear as a key; but distinct
filenames may normalize to the same identifier, in which case the later
file's path overwrites the earlier one and that document is silently
lost. -/
theorem C8_scan_keys_amended (listing : List FsEntry) :
    ((scan_documents_folder listing).map Prod.fst).Nodup ∧
      ∀ e ∈ listing, e.isDir = false →
        supported_extensions.contains (splitext (lowerS e.name)).2 = true →
          docKey e.name ∈ (scan_documents_folder listing).map Prod.fst :=
  ⟨nodup_keys_scanFold listing [] (by simp),
    fun e he hdir hext => scanFold_covers listing [] e he hdir hext⟩

/-- Witness listing for C8. -/
def listingW : List FsEntry :=
  [ ⟨ "a b.txt".data, false ⟩, ⟨ "a-b.txt".data, false ⟩ ]

/-- Concrete witness for the amended C8 on the witness listing. -/
theorem C8_scan_keys_amended_witness :
    ((scan_documents_folder listingW).map Prod.fst).Nodup ∧
      docKey ("a b.txt".data) ∈ (scan_documents_folder listingW).map Prod.fst :=
  ⟨(C8_scan_keys_amended listingW).1,
    (C8_scan_keys_amended listingW).2 ⟨ "a b.txt".data, false ⟩
      (by decide) (by decide) (by decide)⟩
